import Mathlib

/-!
# NoteTracker reminder engine — verification of the specification's claims

Shallow embedding of the reminder scheduling / multi-channel notification
subsystem of the NoteTracker repository:

* `apps/general/utils/reminder_engine.py` — `ReminderEngine.start`,
  `ReminderEngine.stop`, `ReminderEngine.check_reminders`,
  `ReminderEngine.send_reminder`, `ReminderEngine.send_immediate_reminder`,
  `resend_reminder`;
* `core/notifications.py` — `send_telegram`, `create_in_app_notification`;
* `core/db.py` — the `gen_task_reminders` schema and the generic
  `update_record` / `create_record` helpers, modelled as pure updates of an
  in-memory table;
* `apps/general/utils/task_ops.py` — `create_task_reminder`.

Modelling conventions:

* Calendar dates are modelled by their day ordinal (`Int`).  Python compares
  dates through their canonical ISO strings, and two valid dates have equal
  ISO strings iff they have equal ordinals; `datetime - timedelta(days=n)`
  subtracts `n` from the ordinal.  `daysFromCivil` computes the ordinal of a
  concrete Gregorian date (standard civil-calendar algorithm, faithful to
  Python's `date.toordinal` up to a constant offset, which cancels in every
  comparison the code performs).
* SQLite `INTEGER` flags holding only 0/1 (`is_sent`, `archived`) are
  modelled as `Bool`; nullable columns as `Option`.
* Python truthiness of an optional string (`if reminder['email']:`) is
  `pyTruthy`: `None` and `""` are falsy.
* `int(s.split(':')[0])` is modelled by `parseHour`: the segment before the
  first `':'` parsed as a signed decimal integer, `none` when Python's
  `int()` would raise `ValueError`.
* Calls into the environment that can raise (`create_in_app_notification`,
  `update_record`) or that return a success boolean (`send_email`,
  `send_telegram` — both catch all their exceptions internally and return
  a `bool`) have their outcomes supplied by a `DispatchEnv`; the embedded
  control flow around those outcomes is translated from the source.
* A table is a `List` of rows in rowid (insertion) order, which is the order
  SQLite returns rows of these `ORDER BY`-free queries.
-/

/-- Python truthiness of an optional string: `None` and `""` are falsy. -/
def pyTruthy : Option String → Bool
  | none => false
  | some s => !s.toList.isEmpty

/-- The characters of `s.split(':')[0]`: everything before the first `':'`. -/
def beforeColon : List Char → List Char
  | [] => []
  | c :: cs => if c = ':' then [] else c :: beforeColon cs

/-- Decimal value of a digit string (digits already validated). -/
def natOfDigits (cs : List Char) : Nat :=
  cs.foldl (fun a c => a * 10 + (c.toNat - 48)) 0

/-- Python `int(text)` on the text before the first `':'`: an optional minus
sign followed by at least one decimal digit; `none` models the `ValueError`
Python raises on anything else (empty segment, letters, `HH` with stray
characters, …). -/
def parseHour (s : String) : Option Int :=
  match beforeColon s.toList with
  | '-' :: rest =>
    if rest ≠ [] ∧ rest.all Char.isDigit then some (-(natOfDigits rest : Int))
    else none
  | cs =>
    if cs ≠ [] ∧ cs.all Char.isDigit then some (natOfDigits cs : Int)
    else none

/-- Day ordinal of a Gregorian date (civil-calendar algorithm).  Differences
and equalities of these ordinals coincide with those of Python's
`date.toordinal`, which is all the engine's date comparisons use. -/
def daysFromCivil (y m d : Nat) : Nat :=
  let y' := if m ≤ 2 then y - 1 else y
  let era := y' / 400
  let yoe := y' % 400
  let mp := (m + 9) % 12
  let doy := (153 * mp + 2) / 5 + d - 1
  let doe := yoe * 365 + yoe / 4 - yoe / 100 + doy
  era * 146097 + doe

/-- A row of the `gen_task_reminders` table (schema in `core/db.py`). -/
structure ReminderRec where
  id : Nat
  task_id : Nat
  reminder_type : String
  reminder_value : Int
  reminder_time : Option String
  is_sent : Bool
  sent_date : Option Nat
  deriving DecidableEq

/-- A row of the `gen_tasks` table (the columns the engine reads). -/
structure TaskRow where
  id : Nat
  user_id : Nat
  title : String
  due_date : Int
  archived : Bool
  deriving DecidableEq

/-- A row of the `users` table (the columns the engine reads). -/
structure UserRow where
  id : Nat
  email : Option String
  telegram_id : Option String
  deriving DecidableEq

/-- One result row of the engine's joined queries:
`SELECT r.*, t.user_id, t.title, t.due_date, u.email, u.telegram_id FROM
gen_task_reminders r JOIN gen_tasks t ON r.task_id = t.id JOIN users u ON
t.user_id = u.id`. -/
structure JoinedRow where
  rem : ReminderRec
  user_id : Nat
  title : String
  due_date : Int
  email : Option String
  telegram_id : Option String
  deriving DecidableEq

/-- The in-memory database: each table as a list of rows in rowid order. -/
structure DB where
  reminders : List ReminderRec
  tasks : List TaskRow
  users : List UserRow
  deriving DecidableEq

/-- Projection of a joined `(reminder, task, user)` triple onto the columns
selected by the engine's queries. -/
def mkJoined (r : ReminderRec) (t : TaskRow) (u : UserRow) : JoinedRow :=
  { rem := r, user_id := t.user_id, title := t.title, due_date := t.due_date,
    email := u.email, telegram_id := u.telegram_id }

/-- `JOIN gen_tasks t ON r.task_id = t.id JOIN users u ON t.user_id = u.id`:
the task row and user row a reminder joins with, `none` when either is
missing (an inner join drops the reminder). -/
def joinRow (db : DB) (r : ReminderRec) : Option (TaskRow × UserRow) :=
  (db.tasks.find? fun t => t.id = r.task_id).bind fun t =>
    (db.users.find? fun u => u.id = t.user_id).map fun u => (t, u)

/-- The due-reminder evaluation of one row: the branch on
`reminder['reminder_type']` in `ReminderEngine.check_reminders`
(reminder_engine.py lines 85–105).  `Except.error ()` models the
`ValueError` raised by `int()` on an unparseable `reminder_time`. -/
def evalDue (today : Int) (hour : Int) (row : JoinedRow) : Except Unit Bool :=
  if row.rem.reminder_type = "on-due-date" then
    .ok (row.due_date = today)
  else if row.rem.reminder_type = "days-before" then
    .ok (row.due_date - row.rem.reminder_value = today)
  else if row.rem.reminder_type = "specific-time" then
    if pyTruthy row.rem.reminder_time then
      match parseHour (row.rem.reminder_time.getD "") with
      | some h => .ok (hour = h)
      | none => .error ()
    else
      .ok false
  else
    .ok false

/-- The `for reminder in reminders:` loop of `check_reminders`: the list of
rows handed to `send_reminder`, in order.  The whole loop sits inside one
`try`, so the first row whose evaluation raises aborts the loop — the
exception is caught (and logged) at the tick boundary, and the remaining
rows of that tick are neither evaluated nor dispatched. -/
def check_reminders_loop (today : Int) (hour : Int) : List JoinedRow → List JoinedRow
  | [] => []
  | row :: rest =>
    match evalDue today hour row with
    | .error _ => []
    | .ok true => row :: check_reminders_loop today hour rest
    | .ok false => check_reminders_loop today hour rest

/-- The tick's query (`check_reminders`): undelivered reminders joined with
task and user, `WHERE r.is_sent = 0 AND t.archived = 0`. -/
def check_reminders_query (db : DB) : List JoinedRow :=
  db.reminders.filterMap fun r =>
    match joinRow db r with
    | none => none
    | some (t, u) =>
      if r.is_sent = false ∧ t.archived = false then some (mkJoined r t u)
      else none

/-- The composed tick (`check_reminders`): run the query, then the loop.
The whole body sits in a `try/except` that logs, so the tick itself never
raises; its observable effect is the ordered list of dispatched rows. -/
def check_reminders (db : DB) (today : Int) (hour : Int) : List JoinedRow :=
  check_reminders_loop today hour (check_reminders_query db)

/-- Outcomes the environment supplies to one `send_reminder` call.
`send_email` and `send_telegram` catch all their internal exceptions and
return a `bool`, so they only contribute a boolean; `create_in_app_notification`
(`create_record`) and `update_record` either return normally or raise
`DatabaseError`, so they contribute a raise/no-raise outcome. -/
structure DispatchEnv where
  inAppOk : Bool
  emailResult : Bool
  telegramResult : Bool
  updateOk : Bool
  deriving DecidableEq

/-- Observable outcome of one `ReminderEngine.send_reminder` call: which
channels were invoked, how many `update_record` calls were made for the
sent flag, and the reminder row's resulting state. -/
structure SendOutcome where
  inAppAttempted : Bool
  emailAttempted : Bool
  telegramAttempted : Bool
  markCalls : Nat
  record : ReminderRec
  deriving DecidableEq

/-- The `update_record('gen_task_reminders', id, {'is_sent': 1,
'sent_date': datetime.now().isoformat()})` call of `send_reminder`. -/
def markDelivered (r : ReminderRec) (now : Nat) : ReminderRec :=
  { r with is_sent := true, sent_date := some now }

/-- `ReminderEngine.send_reminder` (reminder_engine.py lines 113–157): the
whole body sits in ONE `try`; the in-app notification is created first, then
email and Telegram are attempted when the recipient's address/identifier is
truthy, then the row is marked sent.  An exception from
`create_in_app_notification` jumps to the `except` (which only logs), so the
later steps are skipped; an exception from `update_record` leaves the row
unchanged after the channels have already run. -/
def send_reminder (env : DispatchEnv) (row : JoinedRow) (now : Nat) : SendOutcome :=
  if env.inAppOk = false then
    { inAppAttempted := true, emailAttempted := false, telegramAttempted := false,
      markCalls := 0, record := row.rem }
  else
    { inAppAttempted := true,
      emailAttempted := pyTruthy row.email,
      telegramAttempted := pyTruthy row.telegram_id,
      markCalls := 1,
      record := if env.updateOk then markDelivered row.rem now else row.rem }

/-- Apply a per-row update function to the reminder with the given id
(the generic `update_record` on `gen_task_reminders`). -/
def updateReminderDb (db : DB) (rid : Nat) (f : ReminderRec → ReminderRec) : DB :=
  { db with reminders := db.reminders.map fun r => if r.id = rid then f r else r }

/-- Effect of `send_reminder` on the database: the dispatched row's record
is replaced by the dispatch outcome's record. -/
def applyDispatchDb (env : DispatchEnv) (db : DB) (row : JoinedRow) (now : Nat) : DB :=
  updateReminderDb db row.rem.id fun _ => (send_reminder env row now).record

/-- The query of `ReminderEngine.send_immediate_reminder`:
`WHERE t.id = ? AND t.user_id = ? AND r.is_sent = 0` — note: NO filter on
`t.archived`. -/
def immediateRows (db : DB) (user_id task_id : Nat) : List JoinedRow :=
  db.reminders.filterMap fun r =>
    match joinRow db r with
    | none => none
    | some (t, u) =>
      if t.id = task_id ∧ t.user_id = user_id ∧ r.is_sent = false then
        some (mkJoined r t u)
      else none

/-- `ReminderEngine.send_immediate_reminder` (lines 159–191): `LIMIT 1` on
the query above (first row in rowid order), dispatch it and return `True`;
return `False` when the query is empty.  No due-ness evaluation occurs. -/
def send_immediate_reminder (env : DispatchEnv) (db : DB) (user_id task_id : Nat)
    (now : Nat) : Bool × DB :=
  match (immediateRows db user_id task_id).head? with
  | some row => (true, applyDispatchDb env db row now)
  | none => (false, db)

/-- The reset step of `resend_reminder`:
`update_record('gen_task_reminders', reminder_id, {'is_sent': 0})` — it
writes only `is_sent`; `sent_date` is left untouched. -/
def resetDelivered (r : ReminderRec) : ReminderRec :=
  { r with is_sent := false }

/-- `get_record('gen_task_reminders', reminder_id)`. -/
def getRecord (db : DB) (rid : Nat) : Option ReminderRec :=
  db.reminders.find? fun r => r.id = rid

/-- The full-context query of `resend_reminder`: `WHERE r.id = ?` — no
filter on `r.is_sent` and none on `t.archived`. -/
def resendRows (db : DB) (rid : Nat) : List JoinedRow :=
  db.reminders.filterMap fun r =>
    match joinRow db r with
    | none => none
    | some (t, u) =>
      if r.id = rid then some (mkJoined r t u) else none

/-- `resend_reminder` (lines 281–316): reset the sent flag, re-read the
record, fetch the joined context and dispatch it; `True` iff a joined row
was found and dispatched. -/
def resend_reminder (env : DispatchEnv) (db : DB) (rid : Nat) (now : Nat) : Bool × DB :=
  let db1 := updateReminderDb db rid resetDelivered
  match getRecord db1 rid with
  | none => (false, db1)
  | some _ =>
    match (resendRows db1 rid).head? with
    | none => (false, db1)
    | some row => (true, applyDispatchDb env db1 row now)

/-- `create_task_reminder` (task_ops.py lines 379–404): the inserted row —
`is_sent` 0 and no `sent_date` value, so the column takes its `NULL`
default. -/
def create_task_reminder (newId task_id : Nat) (rtype : String) (rvalue : Int)
    (rtime : Option String) : ReminderRec :=
  { id := newId, task_id := task_id, reminder_type := rtype,
    reminder_value := rvalue, reminder_time := rtime,
    is_sent := false, sent_date := none }

/-- The `sent_date`/`is_sent` invariant the specification states for
reminder rows: the timestamp is set iff the flag is set. -/
def deliveredInvariant (r : ReminderRec) : Prop :=
  r.sent_date ≠ none ↔ r.is_sent = true

/-- `ReminderEngine` lifecycle state: whether `self.scheduler` is a live
object, how many recurring jobs are registered on it, and `self.running`. -/
structure Engine where
  hasScheduler : Bool
  jobs : Nat
  running : Bool
  deriving DecidableEq

/-- `ReminderEngine.__init__`: `scheduler = None`, `running = False`. -/
def Engine.mkInit : Engine :=
  { hasScheduler := false, jobs := 0, running := false }

/-- `ReminderEngine.start` (lines 23–50): when already running, log the
"already running" warning and return (`Bool` result is whether that warning
was logged); otherwise build a fresh `BackgroundScheduler`, register the
single
`check_reminders` interval job (so the new scheduler carries exactly one
job) and set `running`.  Every failure path is caught inside the method, so
it never raises. -/
def Engine.start (e : Engine) : Engine × Bool :=
  if e.running then (e, true)
  else ({ hasScheduler := true, jobs := 1, running := true }, false)

/-- `ReminderEngine.stop` (lines 52–60): `if self.scheduler and self.running`
shut the scheduler down (its jobs are gone) and clear `running`; otherwise do
nothing. -/
def Engine.stop (e : Engine) : Engine :=
  if e.hasScheduler ∧ e.running then
    { hasScheduler := true, jobs := 0, running := false }
  else e

/-- Outcome of the HTTP POST inside `send_telegram`: a response with a
status code, or a raised transport exception. -/
inductive HttpResult where
  | status (code : Nat)
  | exn
  deriving DecidableEq

/-- `send_telegram` (core/notifications.py lines 51–85): a falsy
`TELEGRAM_TOKEN` returns `False` at once; otherwise `True` exactly on
`response.status_code == 200`, and any exception inside the `try` is caught
and turned into `False`. -/
def send_telegram (token : Option String) (resp : HttpResult) : Bool :=
  if pyTruthy token = false then false
  else
    match resp with
    | .status c => if c = 200 then true else false
    | .exn => false

/-! Concrete rows used by the scenario parts of the claims and by the
witnesses and counterexamples. -/

/-- A task due 2026-02-10 (the spec's scenario task), owned by user 1. -/
def scenarioTask : TaskRow :=
  { id := 1, user_id := 1, title := "Report",
    due_date := (daysFromCivil 2026 2 10 : Int), archived := false }

/-- User 1 with an email address and no Telegram identifier. -/
def scenarioUser : UserRow :=
  { id := 1, email := some "u@example.com", telegram_id := none }

/-- User 1 with both an email address and a Telegram identifier. -/
def chatUser : UserRow :=
  { id := 1, email := some "u@example.com", telegram_id := some "42" }

/-- User 1 with neither an email address nor a Telegram identifier. -/
def noContactUser : UserRow :=
  { id := 1, email := none, telegram_id := none }

/-- A `days-before = 3` reminder on the scenario task. -/
def daysBeforeReminder : ReminderRec :=
  { id := 1, task_id := 1, reminder_type := "days-before", reminder_value := 3,
    reminder_time := none, is_sent := false, sent_date := none }

/-- The joined row the tick query produces for `daysBeforeReminder`. -/
def daysBeforeRow : JoinedRow := mkJoined daysBeforeReminder scenarioTask scenarioUser

/-- A `specific-time` reminder whose `reminder_time` does not parse. -/
def badTimeReminder : ReminderRec :=
  { id := 2, task_id := 1, reminder_type := "specific-time", reminder_value := 0,
    reminder_time := some "soon", is_sent := false, sent_date := none }

/-- The joined row for `badTimeReminder`. -/
def badTimeRow : JoinedRow := mkJoined badTimeReminder scenarioTask scenarioUser

/-- An `on-due-date` reminder on the scenario task. -/
def onDueReminder : ReminderRec :=
  { id := 3, task_id := 1, reminder_type := "on-due-date", reminder_value := 0,
    reminder_time := none, is_sent := false, sent_date := none }

/-- The joined row for `onDueReminder`. -/
def onDueRow : JoinedRow := mkJoined onDueReminder scenarioTask scenarioUser

/-- A reminder whose policy tag is none of the three known values. -/
def unknownPolicyReminder : ReminderRec :=
  { id := 4, task_id := 1, reminder_type := "weekly", reminder_value := 0,
    reminder_time := none, is_sent := false, sent_date := none }

/-- The joined row for `unknownPolicyReminder`. -/
def unknownPolicyRow : JoinedRow := mkJoined unknownPolicyReminder scenarioTask scenarioUser

/-- A `specific-time = "09:00"` reminder on the scenario task. -/
def nineAmReminder : ReminderRec :=
  { id := 5, task_id := 1, reminder_type := "specific-time", reminder_value := 0,
    reminder_time := some "09:00", is_sent := false, sent_date := none }

/-- The joined row for `nineAmReminder`. -/
def nineAmRow : JoinedRow := mkJoined nineAmReminder scenarioTask scenarioUser

/-- An already delivered reminder row. -/
def deliveredRec : ReminderRec :=
  { id := 9, task_id := 1, reminder_type := "on-due-date", reminder_value := 0,
    reminder_time := none, is_sent := true, sent_date := some 7 }

/-- Environment in which every external call succeeds. -/
def okEnv : DispatchEnv :=
  { inAppOk := true, emailResult := true, telegramResult := true, updateOk := true }

/-- Environment in which both outbound channels report failure. -/
def channelsFailEnv : DispatchEnv :=
  { inAppOk := true, emailResult := false, telegramResult := false, updateOk := true }

/-- Environment in which `create_in_app_notification` raises. -/
def inAppRaiseEnv : DispatchEnv :=
  { inAppOk := false, emailResult := true, telegramResult := true, updateOk := true }

/-- The scenario task in archived state. -/
def archivedTask : TaskRow :=
  { id := 1, user_id := 1, title := "Report",
    due_date := (daysFromCivil 2026 2 10 : Int), archived := true }

/-- A database whose only task is archived but still carries an undelivered
reminder. -/
def archDb : DB :=
  { reminders := [daysBeforeReminder], tasks := [archivedTask], users := [scenarioUser] }

/-- A database with an active task and two undelivered reminders (ids 1, 4). -/
def goodDb : DB :=
  { reminders := [daysBeforeReminder, unknownPolicyReminder],
    tasks := [scenarioTask], users := [scenarioUser] }

/-! ## Theorems -/

/-- C1: for every dispatch of a single reminder in which the in-app call
returns normally (email and Telegram always return booleans by construction
of their own exception handlers) and the storage update succeeds, the
reminder ends marked `is_sent = true` with the current timestamp via exactly
one `update_record` call, whatever booleans the outbound channels returned
and whatever contact data the recipient has — in particular also when the
recipient has neither an email address nor a Telegram identifier. -/
theorem dispatch_marks_delivered_once (env : DispatchEnv) (row : JoinedRow) (now : Nat)
    (hin : env.inAppOk = true) (hupd : env.updateOk = true) :
    (send_reminder env row now).record = markDelivered row.rem now ∧
    (send_reminder env row now).record.is_sent = true ∧
    (send_reminder env row now).record.sent_date = some now ∧
    (send_reminder env row now).markCalls = 1 := by
  simp [send_reminder, hin, hupd, markDelivered]

/-- Witness for C1: a concrete dispatch in which both outbound channels
report failure and the recipient has neither email nor chat identifier still
ends delivered with the timestamp, marked exactly once. -/
theorem dispatch_marks_delivered_once_witness :
    (send_reminder channelsFailEnv (mkJoined onDueReminder scenarioTask noContactUser) 11).record
        = markDelivered onDueReminder 11 ∧
    (send_reminder channelsFailEnv (mkJoined onDueReminder scenarioTask noContactUser) 11).record.is_sent
        = true ∧
    (send_reminder channelsFailEnv (mkJoined onDueReminder scenarioTask noContactUser) 11).record.sent_date
        = some 11 ∧
    (send_reminder channelsFailEnv (mkJoined onDueReminder scenarioTask noContactUser) 11).markCalls = 1 :=
  dispatch_marks_delivered_once channelsFailEnv
    (mkJoined onDueReminder scenarioTask noContactUser) 11 rfl rfl

/-- C2: a `days-before` reminder with value `n` on a task due `d` is judged
due at evaluation moment `t` iff `date(t) + n = d` (the code computes
`d − n = today`, an equivalent comparison); concretely, for `d = 2026-02-10`
and `n = 3` it is due on 2026-02-07 and not due on 2026-02-06 or
2026-02-08. -/
theorem days_before_due_iff (today hour : Int) (row : JoinedRow)
    (h : row.rem.reminder_type = "days-before") :
    (evalDue today hour row = .ok true ↔ today + row.rem.reminder_value = row.due_date) ∧
    evalDue (daysFromCivil 2026 2 7 : Int) 0 daysBeforeRow = .ok true ∧
    evalDue (daysFromCivil 2026 2 6 : Int) 0 daysBeforeRow = .ok false ∧
    evalDue (daysFromCivil 2026 2 8 : Int) 0 daysBeforeRow = .ok false := by
  refine ⟨?_, by rfl, by rfl, by rfl⟩
  simp [evalDue, h]
  omega

/-- Witness for C2: the scenario reminder evaluated on 2026-02-07. -/
theorem days_before_due_iff_witness :
    (evalDue (daysFromCivil 2026 2 7 : Int) 9 daysBeforeRow = .ok true ↔
      (daysFromCivil 2026 2 7 : Int) + daysBeforeRow.rem.reminder_value = daysBeforeRow.due_date) ∧
    evalDue (daysFromCivil 2026 2 7 : Int) 0 daysBeforeRow = .ok true ∧
    evalDue (daysFromCivil 2026 2 6 : Int) 0 daysBeforeRow = .ok false ∧
    evalDue (daysFromCivil 2026 2 8 : Int) 0 daysBeforeRow = .ok false :=
  days_before_due_iff (daysFromCivil 2026 2 7 : Int) 9 daysBeforeRow rfl

/-- C3: a `specific-time` reminder whose truthy `reminder_time` parses to
hour `hh` is judged due at evaluation moment `t` iff the hour of `t` equals
`hh`, for every evaluation day and independently of the parent task's due
date (the tick query restricts to undelivered rows, which is the only
duplicate suppression); a reminder with a missing or empty `reminder_time`
is never due. -/
theorem specific_time_due_iff (today hour : Int) (row : JoinedRow) (s : String) (hh : Int)
    (ht : row.rem.reminder_type = "specific-time") :
    (row.rem.reminder_time = some s → pyTruthy (some s) = true → parseHour s = some hh →
      (evalDue today hour row = .ok true ↔ hour = hh)) ∧
    (∀ d : Int, evalDue today hour { row with due_date := d } = evalDue today hour row) ∧
    ((row.rem.reminder_time = none ∨ row.rem.reminder_time = some "") →
      evalDue today hour row = .ok false) ∧
    (∀ db : DB, ∀ j ∈ check_reminders_query db, j.rem.is_sent = false) := by
  refine ⟨?_, ?_, ?_, ?_⟩
  · intro htime htruthy hparse
    simp [evalDue, ht, htime, htruthy, hparse]
  · intro d
    simp [evalDue, ht]
  · rintro (hnone | hempty)
    · simp [evalDue, ht, hnone, pyTruthy]
    · simp [evalDue, ht, hempty, pyTruthy]
  · intro db j hj
    simp only [check_reminders_query, List.mem_filterMap] at hj
    obtain ⟨r, _, hfr⟩ := hj
    rcases hjoin : joinRow db r with _ | ⟨t, u⟩ <;> simp [hjoin] at hfr
    obtain ⟨⟨hsent, _⟩, hrow⟩ := hfr
    rw [← hrow]
    exact hsent

/-- Witness for C3: the concrete `specific-time = "09:00"` reminder of the
spec's scenario is due at hour 9 on the scenario day and on an unrelated
day, and evaluation ignores the task's due date. -/
theorem specific_time_due_iff_witness :
    (nineAmRow.rem.reminder_time = some "09:00" → pyTruthy (some "09:00") = true →
      parseHour "09:00" = some 9 →
      (evalDue (daysFromCivil 2026 2 10 : Int) 9 nineAmRow = .ok true ↔ (9 : Int) = 9)) ∧
    (∀ d : Int,
      evalDue (daysFromCivil 2026 2 10 : Int) 9 { nineAmRow with due_date := d }
        = evalDue (daysFromCivil 2026 2 10 : Int) 9 nineAmRow) ∧
    ((nineAmRow.rem.reminder_time = none ∨ nineAmRow.rem.reminder_time = some "") →
      evalDue (daysFromCivil 2026 2 10 : Int) 9 nineAmRow = .ok false) ∧
    (∀ db : DB, ∀ j ∈ check_reminders_query db, j.rem.is_sent = false) :=
  specific_time_due_iff (daysFromCivil 2026 2 10 : Int) 9 nineAmRow "09:00" 9 rfl

/-- C10: with a configured (truthy) bot token, `send_telegram` returns
`True` iff the HTTP response status code is exactly 200; any other status
code and a raised transport exception both yield `False`, and the function
itself never raises (all exceptions are caught inside it). -/
theorem send_telegram_true_iff (token : Option String) (resp : HttpResult)
    (h : pyTruthy token = true) :
    send_telegram token resp = true ↔ resp = .status 200 := by
  cases resp with
  | status c => simp [send_telegram, h]
  | exn => simp [send_telegram, h]

/-- Witness for C10: a concrete configured token with a 200 response. -/
theorem send_telegram_true_iff_witness :
    pyTruthy (some "botsecret") = true ∧
    (send_telegram (some "botsecret") (.status 200) = true ↔
      (HttpResult.status 200 = .status 200)) :=
  ⟨rfl, send_telegram_true_iff (some "botsecret") (.status 200) rfl⟩

/-- C9: `start()` from the stopped state registers exactly one recurring job
and sets running; `start()` while running is a no-op that only logs the
"already running" warning (the `Bool` component), so two consecutive calls
from the initial state leave exactly one registered job and exactly one
warning (on the second call only); `stop()` while running shuts the
scheduler down, and `stop()` while stopped is a no-op.  Both methods catch
every failure path internally (`start` has `except` clauses, `stop`'s
no-op path executes nothing), so the model functions are total: misuse
never raises. -/
theorem scheduler_lifecycle (e : Engine) :
    (e.running = false →
      e.start = ({ hasScheduler := true, jobs := 1, running := true }, false)) ∧
    (e.running = true → e.start = (e, true)) ∧
    Engine.mkInit.start.1.jobs = 1 ∧
    Engine.mkInit.start.2 = false ∧
    Engine.mkInit.start.1.start = (Engine.mkInit.start.1, true) ∧
    Engine.mkInit.start.1.start.1.jobs = 1 ∧
    (e.running = true → e.hasScheduler = true →
      e.stop = { hasScheduler := true, jobs := 0, running := false }) ∧
    (e.running = false → e.stop = e) := by
  refine ⟨?_, ?_, rfl, rfl, rfl, rfl, ?_, ?_⟩
  · intro h; simp [Engine.start, h]
  · intro h; simp [Engine.start, h]
  · intro h1 h2; simp [Engine.stop, h1, h2]
  · intro h; simp [Engine.stop, h]

/-- Witness for C9: the lifecycle facts instantiated at the freshly
constructed engine. -/
theorem scheduler_lifecycle_witness :
    Engine.mkInit.start = ({ hasScheduler := true, jobs := 1, running := true }, false) ∧
    Engine.mkInit.start.1.start = (Engine.mkInit.start.1, true) ∧
    Engine.mkInit.stop = Engine.mkInit ∧
    Engine.mkInit.start.1.stop = { hasScheduler := true, jobs := 0, running := false } :=
  ⟨(scheduler_lifecycle Engine.mkInit).1 rfl,
   (scheduler_lifecycle Engine.mkInit.start.1).2.1 rfl,
   (scheduler_lifecycle Engine.mkInit).2.2.2.2.2.2.2 rfl,
   (scheduler_lifecycle Engine.mkInit.start.1).2.2.2.2.2.2.1 rfl rfl⟩

/-- C4 counterexample: on the scenario due date, a tick whose first row has
the unparseable `reminder_time` `"soon"` dispatches NOTHING — the
`ValueError` from `int()` is caught at the tick boundary and the remaining
rows are skipped — although the same tick without the malformed row would
have dispatched the due `on-due-date` reminder.  This falsifies "its
presence does not prevent the remaining reminders in that same tick from
being evaluated and dispatched". -/
theorem malformed_time_blocks_tick_cex :
    evalDue (daysFromCivil 2026 2 10 : Int) 9 badTimeRow = .error () ∧
    check_reminders_loop (daysFromCivil 2026 2 10 : Int) 9 [badTimeRow, onDueRow] = [] ∧
    check_reminders_loop (daysFromCivil 2026 2 10 : Int) 9 [onDueRow] = [onDueRow] := by
  refine ⟨rfl, rfl, rfl⟩

/-- C4 (amended): a row whose policy tag is none of the three known values
is evaluated as not due without an exception and does not affect the rest of
the tick; but a row whose `reminder_time` does not parse to an integer makes
the evaluation raise, and although the tick's outer handler keeps the
exception from escaping `check_reminders`, the remaining rows of that tick
are skipped. -/
theorem malformed_reminder_tick (today hour : Int) (row : JoinedRow)
    (rest : List JoinedRow) :
    (row.rem.reminder_type ≠ "on-due-date" → row.rem.reminder_type ≠ "days-before" →
      row.rem.reminder_type ≠ "specific-time" →
      evalDue today hour row = .ok false ∧
      check_reminders_loop today hour (row :: rest) = check_reminders_loop today hour rest) ∧
    (evalDue today hour row = .error () →
      check_reminders_loop today hour (row :: rest) = []) := by
  constructor
  · intro h1 h2 h3
    have he : evalDue today hour row = .ok false := by simp [evalDue, h1, h2, h3]
    exact ⟨he, by simp [check_reminders_loop, he]⟩
  · intro he
    simp [check_reminders_loop, he]

/-- Witness for C4 (amended): the unknown-tag row `"weekly"` is not due and
transparent to the tick; the `"soon"` row aborts the rest of its tick. -/
theorem malformed_reminder_tick_witness :
    (evalDue 0 9 unknownPolicyRow = .ok false ∧
      check_reminders_loop 0 9 [unknownPolicyRow, onDueRow]
        = check_reminders_loop 0 9 [onDueRow]) ∧
    check_reminders_loop 0 9 [badTimeRow, onDueRow] = [] :=
  ⟨(malformed_reminder_tick 0 9 unknownPolicyRow [onDueRow]).1
      (by decide) (by decide) (by decide),
   (malformed_reminder_tick 0 9 badTimeRow [onDueRow]).2 rfl⟩

/-- C5 counterexample: in a dispatch whose in-app notification-row creation
raises, a recipient with both an email address and a chat identifier gets
NEITHER channel attempted — the single `try` around the whole of
`send_reminder` jumps straight to its `except`.  This falsifies "the email
notifier and the chat notifier are still attempted for that same
reminder". -/
theorem in_app_failure_blocks_channels_cex :
    inAppRaiseEnv.inAppOk = false ∧
    (mkJoined onDueReminder scenarioTask chatUser).email = some "u@example.com" ∧
    (mkJoined onDueReminder scenarioTask chatUser).telegram_id = some "42" ∧
    (send_reminder inAppRaiseEnv (mkJoined onDueReminder scenarioTask chatUser) 11).emailAttempted
      = false ∧
    (send_reminder inAppRaiseEnv (mkJoined onDueReminder scenarioTask chatUser) 11).telegramAttempted
      = false := by
  refine ⟨rfl, rfl, rfl, rfl, rfl⟩

/-- C5 (amended): `create_in_app_notification` either returns an id or
raises (it has no boolean failure mode); when it raises, `send_reminder`'s
only handler — the outer one — catches and logs it, and the dispatch is
aborted: email and chat are not attempted, no `update_record` call is made,
and the reminder row is left unchanged (so it stays undelivered). -/
theorem in_app_failure_aborts_dispatch (env : DispatchEnv) (row : JoinedRow) (now : Nat)
    (h : env.inAppOk = false) :
    send_reminder env row now =
      { inAppAttempted := true, emailAttempted := false, telegramAttempted := false,
        markCalls := 0, record := row.rem } := by
  simp [send_reminder, h]

/-- Witness for C5 (amended): the concrete aborted dispatch. -/
theorem in_app_failure_aborts_dispatch_witness :
    send_reminder inAppRaiseEnv (mkJoined onDueReminder scenarioTask chatUser) 11 =
      { inAppAttempted := true, emailAttempted := false, telegramAttempted := false,
        markCalls := 0, record := onDueReminder } :=
  in_app_failure_aborts_dispatch inAppRaiseEnv (mkJoined onDueReminder scenarioTask chatUser) 11 rfl

/-- C6 counterexample: the reset step of `resend_reminder` writes only
`{'is_sent': 0}`, so resetting a delivered reminder leaves `sent_date` set
while `is_sent` is false — the claimed invariant "delivered_at is set iff
delivered is true" fails right after the reset. -/
theorem reset_keeps_timestamp_cex :
    deliveredRec.is_sent = true ∧
    deliveredInvariant deliveredRec ∧
    (resetDelivered deliveredRec).is_sent = false ∧
    (resetDelivered deliveredRec).sent_date = some 7 ∧
    ¬ deliveredInvariant (resetDelivered deliveredRec) := by
  refine ⟨rfl, by simp [deliveredInvariant, deliveredRec], rfl, rfl, ?_⟩
  simp [deliveredInvariant, resetDelivered, deliveredRec]

/-- C6 (amended): creation (`create_task_reminder`) and the dispatch marking
(`markDelivered`) preserve the `sent_date`/`is_sent` invariant, but the
reset performed by `resend_reminder` clears only the flag and leaves the
timestamp, so resetting any delivered reminder that satisfied the invariant
produces a row that violates it (`is_sent = false` with `sent_date` still
set). -/
theorem delivered_invariant_ops (newId tid : Nat) (rtype : String) (rvalue : Int)
    (rtime : Option String) (r : ReminderRec) (now : Nat) :
    deliveredInvariant (create_task_reminder newId tid rtype rvalue rtime) ∧
    deliveredInvariant (markDelivered r now) ∧
    (deliveredInvariant r → r.is_sent = true →
      (resetDelivered r).is_sent = false ∧ (resetDelivered r).sent_date ≠ none ∧
      ¬ deliveredInvariant (resetDelivered r)) := by
  refine ⟨?_, ?_, ?_⟩
  · simp [deliveredInvariant, create_task_reminder]
  · simp [deliveredInvariant, markDelivered]
  · intro hinv hsent
    have hts : r.sent_date ≠ none := hinv.mpr hsent
    refine ⟨rfl, hts, ?_⟩
    simp [deliveredInvariant, resetDelivered]
    exact hts

/-- Witness for C6 (amended): the concrete operations. -/
theorem delivered_invariant_ops_witness :
    deliveredInvariant (create_task_reminder 8 1 "days-before" 3 none) ∧
    deliveredInvariant (markDelivered deliveredRec 11) ∧
    ((resetDelivered deliveredRec).is_sent = false ∧
      (resetDelivered deliveredRec).sent_date ≠ none ∧
      ¬ deliveredInvariant (resetDelivered deliveredRec)) :=
  ⟨(delivered_invariant_ops 8 1 "days-before" 3 none deliveredRec 11).1,
   (delivered_invariant_ops 8 1 "days-before" 3 none deliveredRec 11).2.1,
   (delivered_invariant_ops 8 1 "days-before" 3 none deliveredRec 11).2.2
      (by simp [deliveredInvariant, deliveredRec]) rfl⟩

/-- C7 counterexample: a database whose only task is archived still carries
an undelivered reminder; the scheduled tick's query excludes it, but
`send_immediate_reminder` and `resend_reminder` both find it — neither
query filters on `t.archived` — and dispatch it, returning `True`.  This
falsifies "no execution path … ever evaluates it as due or invokes any
channel notifier for it". -/
theorem archived_task_dispatch_cex :
    archivedTask.archived = true ∧
    check_reminders_query archDb = [] ∧
    (send_immediate_reminder okEnv archDb 1 1 11).1 = true ∧
    (resend_reminder okEnv archDb 1 11).1 = true := by
  refine ⟨rfl, rfl, rfl, rfl⟩

/-- A successful join pins the task row: it is a member of the task table
and carries the reminder's `task_id`. -/
theorem joinRow_task {db : DB} {r : ReminderRec} {t : TaskRow} {u : UserRow}
    (h : joinRow db r = some (t, u)) : t ∈ db.tasks ∧ t.id = r.task_id := by
  simp only [joinRow, Option.bind_eq_some, Option.map_eq_some'] at h
  obtain ⟨t', hf, u', hu', heq⟩ := h
  injection heq with h1 h2
  subst h1
  refine ⟨List.mem_of_find?_eq_some hf, ?_⟩
  have := List.find?_some hf
  simpa using this

/-- C7 (amended): exclusion of missing tasks happens at the join in every
lookup that feeds the Dispatcher, but exclusion of archived tasks happens
only in the scheduled tick's query: every row the tick query returns comes
from a present, unarchived task and an undelivered reminder, while
`send_immediate_reminder`'s and `resend_reminder`'s lookups only guarantee a
present task (no `archived` filter), so both will dispatch a reminder whose
task is archived. -/
theorem join_level_exclusion (db : DB) :
    (∀ row ∈ check_reminders_query db, ∃ t ∈ db.tasks,
        t.id = row.rem.task_id ∧ t.archived = false ∧ row.rem.is_sent = false) ∧
    (∀ uid tid : Nat, ∀ row ∈ immediateRows db uid tid, ∃ t ∈ db.tasks,
        t.id = row.rem.task_id ∧ row.rem.is_sent = false) ∧
    (∀ rid : Nat, ∀ row ∈ resendRows db rid, ∃ t ∈ db.tasks, t.id = row.rem.task_id) := by
  refine ⟨?_, ?_, ?_⟩
  · intro row hrow
    simp only [check_reminders_query, List.mem_filterMap] at hrow
    obtain ⟨r, _, hfr⟩ := hrow
    rcases hjoin : joinRow db r with _ | ⟨t, u⟩ <;> simp [hjoin] at hfr
    obtain ⟨⟨hsent, harch⟩, hrow'⟩ := hfr
    obtain ⟨htmem, htid⟩ := joinRow_task hjoin
    exact ⟨t, htmem, by rw [← hrow']; exact ⟨htid, harch, hsent⟩⟩
  · intro uid tid row hrow
    simp only [immediateRows, List.mem_filterMap] at hrow
    obtain ⟨r, _, hfr⟩ := hrow
    rcases hjoin : joinRow db r with _ | ⟨t, u⟩ <;> simp [hjoin] at hfr
    obtain ⟨⟨_, _, hsent⟩, hrow'⟩ := hfr
    obtain ⟨htmem, htid⟩ := joinRow_task hjoin
    exact ⟨t, htmem, by rw [← hrow']; exact ⟨htid, hsent⟩⟩
  · intro rid row hrow
    simp only [resendRows, List.mem_filterMap] at hrow
    obtain ⟨r, _, hfr⟩ := hrow
    rcases hjoin : joinRow db r with _ | ⟨t, u⟩ <;> simp [hjoin] at hfr
    obtain ⟨_, hrow'⟩ := hfr
    obtain ⟨htmem, htid⟩ := joinRow_task hjoin
    exact ⟨t, htmem, by rw [← hrow']; exact htid⟩

/-- Witness for C7 (amended): the tick-query guarantee instantiated on a
database where the query is non-empty. -/
theorem join_level_exclusion_witness :
    ∃ t ∈ goodDb.tasks,
      t.id = daysBeforeRow.rem.task_id ∧ t.archived = false ∧
      daysBeforeRow.rem.is_sent = false :=
  (join_level_exclusion goodDb).1 daysBeforeRow (by decide)

/-- The head of a list sorted by strictly increasing reminder id is minimal
in id among its members. -/
theorem head_min_of_sorted {l : List JoinedRow}
    (hp : List.Pairwise (fun a b => a.rem.id < b.rem.id) l) {r0 : JoinedRow}
    (h : l.head? = some r0) : ∀ j ∈ l, r0.rem.id ≤ j.rem.id := by
  cases l with
  | nil => simp at h
  | cons a as =>
    simp only [List.head?_cons, Option.some.injEq] at h
    subst h
    intro j hj
    rcases List.mem_cons.mp hj with rfl | hj
    · exact Nat.le_refl _
    · exact Nat.le_of_lt (List.rel_of_pairwise_cons hp hj)

/-- Every row of `immediateRows` carries the reminder record it was built
from, so sortedness of the reminder table by id transfers to the query
result. -/
theorem immediateRows_sorted {db : DB} {uid tid : Nat}
    (h : List.Pairwise (fun a b => a.id < b.id) db.reminders) :
    List.Pairwise (fun a b => a.rem.id < b.rem.id) (immediateRows db uid tid) := by
  refine List.Pairwise.filterMap _ ?_ h
  intro a b hab c hc d hd
  simp only [Option.mem_def] at hc hd
  rcases hja : joinRow db a with _ | ⟨ta, ua⟩ <;> simp [hja] at hc
  rcases hjb : joinRow db b with _ | ⟨tb, ub⟩ <;> simp [hjb] at hd
  obtain ⟨_, hc'⟩ := hc
  obtain ⟨_, hd'⟩ := hd
  rw [← hc', ← hd']
  exact hab

/-- Sortedness also transfers to the tick query's rows (shared helper). -/
theorem check_reminders_query_sorted {db : DB}
    (h : List.Pairwise (fun a b => a.id < b.id) db.reminders) :
    List.Pairwise (fun a b => a.rem.id < b.rem.id) (check_reminders_query db) := by
  refine List.Pairwise.filterMap _ ?_ h
  intro a b hab c hc d hd
  simp only [Option.mem_def] at hc hd
  rcases hja : joinRow db a with _ | ⟨ta, ua⟩ <;> simp [hja] at hc
  rcases hjb : joinRow db b with _ | ⟨tb, ub⟩ <;> simp [hjb] at hd
  obtain ⟨_, hc'⟩ := hc
  obtain ⟨_, hd'⟩ := hd
  rw [← hc', ← hd']
  exact hab

/-- C8: `send_immediate_reminder(user_id, task_id)` with a reminder table in
rowid (creation) order: when its query — undelivered reminders of that task
belonging to that user, joined with task and user, no due-ness evaluation —
is empty, it returns `False` and changes nothing; otherwise it dispatches
exactly the query's first row, which is the oldest (minimal id) matching
reminder, and returns `True`. -/
theorem dispatch_now_oldest (env : DispatchEnv) (db : DB) (uid tid : Nat) (now : Nat)
    (hsorted : List.Pairwise (fun a b => a.id < b.id) db.reminders) :
    ((immediateRows db uid tid).head? = none →
      send_immediate_reminder env db uid tid now = (false, db)) ∧
    (∀ r0, (immediateRows db uid tid).head? = some r0 →
      send_immediate_reminder env db uid tid now = (true, applyDispatchDb env db r0 now) ∧
      r0 ∈ immediateRows db uid tid ∧
      r0.rem.is_sent = false ∧
      ∀ j ∈ immediateRows db uid tid, r0.rem.id ≤ j.rem.id) := by
  constructor
  · intro h
    simp only [send_immediate_reminder, h]
  · intro r0 h
    have hmem : r0 ∈ immediateRows db uid tid := by
      cases hl : immediateRows db uid tid with
      | nil => rw [hl] at h; simp at h
      | cons a as =>
        rw [hl] at h
        simp only [List.head?_cons, Option.some.injEq] at h
        subst h
        exact hl ▸ List.mem_cons_self a as
    have hsent : r0.rem.is_sent = false := by
      simp only [immediateRows, List.mem_filterMap] at hmem
      obtain ⟨r, _, hfr⟩ := hmem
      rcases hjoin : joinRow db r with _ | ⟨t, u⟩ <;> simp [hjoin] at hfr
      obtain ⟨⟨_, _, hs⟩, hr⟩ := hfr
      rw [← hr]
      exact hs
    refine ⟨by simp only [send_immediate_reminder, h], hmem, hsent,
      head_min_of_sorted (immediateRows_sorted hsorted) h⟩

/-- Witness for C8: in a table holding two undelivered reminders (ids 1 and
4) for task 1 of user 1, the dispatched row is the one with id 1, minimal
among the matches, and the call returns `True`. -/
theorem dispatch_now_oldest_witness :
    send_immediate_reminder okEnv goodDb 1 1 11
        = (true, applyDispatchDb okEnv goodDb daysBeforeRow 11) ∧
    daysBeforeRow ∈ immediateRows goodDb 1 1 ∧
    daysBeforeRow.rem.is_sent = false ∧
    ∀ j ∈ immediateRows goodDb 1 1, daysBeforeRow.rem.id ≤ j.rem.id :=
  (dispatch_now_oldest okEnv goodDb 1 1 11 (by decide)).2 daysBeforeRow (by decide)
